import Mathlib

/-!
Verification development for the snow-presence image classifier of the
SnowedInBusStop backend (`server.py`).

The embedding models the two-stage core:

* `analyzeImg` / `analyzeWithNight` — the pixel feature extractor
  (`analyze_image_for_snow`, server.py lines 24-100);
* `classifyFeatures` — the threshold rule ladder inside the `/api/analyze`
  handler (`analyze_image`, server.py lines 152-238), and `analyze_image`
  — the whole handler including its error paths.

Modelling conventions:

* Python/numpy floats are modelled by exact rationals `ℚ`.  All comparisons
  performed by the source (pixel brightness vs integer thresholds, percentage
  vs 40/50/20/10/5) compare quantities whose float rounding error is far
  smaller than their distance to the threshold except at exact ties, where
  both models agree that strict `>` / `<` fail; the claims under study are
  insensitive to the remaining sub-ulp differences.
* `numpy` produces `nan` when asked for the mean of an empty slice and
  propagates it through `*`, and Python comparisons with `nan` are `False`,
  while `max(a, b)` returns `b` only when `b > a`.  Values that can be `nan`
  are modelled by `FVal` (a rational or `nan`) with exactly those operations.
* `int(h * 0.6)`, `int(w * 0.25)`, `int(w * 0.75)` are modelled by the
  natural-number divisions `3*h/5`, `w/4`, `3*w/4`: 0.25 and 0.75 are exact
  binary doubles, and for every height in the double range `int(h*0.6)`
  equals `⌊3h/5⌋`.
* Python `round(x, n)` is modelled by round-half-to-even on the exact
  rational (`pyround`); the float-representation tie anomalies of the real
  `round` do not affect any claim.
* `reason` strings are modelled by the inductive `Reason`, one constructor
  per f-string template of the source, carrying the interpolated values.
  The constant `"ai_enabled": True` field is omitted.
-/

namespace SnowedIn

/-- One RGB sample, each channel an 8-bit value (numpy uint8 promoted to
float by the source before any arithmetic). -/
structure RGB where
  r : ℕ
  g : ℕ
  b : ℕ
deriving DecidableEq, Repr

/-- A Python/numpy float that may be `nan` (mean of an empty slice). -/
inductive FVal
  | nan
  | fin (q : ℚ)
deriving DecidableEq, Repr

namespace FVal

/-- Multiplication by a scalar; `nan` propagates (numpy semantics). -/
def mul : FVal → ℚ → FVal
  | nan, _ => nan
  | fin q, c => fin (q * c)

/-- Python `x > c`: `False` whenever `x` is `nan`. -/
def gtB : FVal → ℚ → Bool
  | nan, _ => false
  | fin q, c => decide (c < q)

/-- Python `x < c`: `False` whenever `x` is `nan`. -/
def ltB : FVal → ℚ → Bool
  | nan, _ => false
  | fin q, c => decide (q < c)

/-- The finite value of an `FVal`; in this development it is only read
under a guard (`gtB`) that already established finiteness. -/
def orZero : FVal → ℚ
  | nan => 0
  | fin q => q

end FVal

/-- Python `max(a, b)`: returns `b` exactly when `b > a`, so it returns the
first argument whenever the first argument is `nan`. -/
def pymax (a b : FVal) : FVal :=
  match a, b with
  | a, FVal.nan => a
  | FVal.nan, FVal.fin _ => FVal.nan
  | FVal.fin x, FVal.fin y => if x < y then FVal.fin y else FVal.fin x

/-- Round-half-to-even to an integer, the rounding mode of Python `round`. -/
def roundHalfEven (q : ℚ) : ℤ :=
  if Int.fract q < 1/2 then ⌊q⌋
  else if 1/2 < Int.fract q then ⌊q⌋ + 1
  else if ⌊q⌋ % 2 = 0 then ⌊q⌋ else ⌊q⌋ + 1

/-- Python `round(q, n)` on the exact rational. -/
def pyround (q : ℚ) (n : ℕ) : ℚ :=
  (roundHalfEven (q * 10 ^ n) : ℚ) / 10 ^ n

/-- Rounding of a possibly-`nan` float: `round(nan, n)` is `nan`. -/
def FVal.round : FVal → ℕ → FVal
  | FVal.nan, _ => FVal.nan
  | FVal.fin q, n => FVal.fin (pyround q n)

/-- `np.mean` of a boolean array: fraction of `True` entries, `nan` when
the array is empty. -/
def meanBool (l : List Bool) : FVal :=
  if l.length = 0 then FVal.nan
  else FVal.fin ((l.count true : ℚ) / (l.length : ℚ))

/-- Decoded image: a list of rows of RGB samples (`np.array(img)` of shape
height × width × 3). -/
structure Img where
  rows : List (List RGB)

def Img.height (img : Img) : ℕ := img.rows.length

def Img.width (img : Img) : ℕ := (img.rows.headD []).length

/-- The grid is rectangular, as every decoded PIL image is. -/
def Img.Rect (img : Img) : Prop := ∀ row ∈ img.rows, row.length = img.width

instance (img : Img) : Decidable img.Rect := by
  unfold Img.Rect; infer_instance

/-- Sum of the three channels of one pixel. -/
def RGB.channelSum (p : RGB) : ℕ := p.r + p.g + p.b

def Img.pixelCount (img : Img) : ℕ := (img.rows.map List.length).sum

def Img.channelTotal (img : Img) : ℕ :=
  (img.rows.map (fun row => (row.map RGB.channelSum).sum)).sum

/-- `overall_brightness = np.mean(img_array)` (server.py line 43): the mean
of every channel value of the whole grid, i.e. the mean of the per-pixel
averages of R,G,B. -/
def overallBrightness (img : Img) : FVal :=
  if img.pixelCount = 0 then FVal.nan
  else FVal.fin ((img.channelTotal : ℚ) / (3 * img.pixelCount : ℚ))

/-- `is_night = overall_brightness < 80` (server.py line 44). -/
def Img.isNight (img : Img) : Bool := (overallBrightness img).ltB 80

/-- Per-pixel brightness `(r + g + b) / 3` (server.py line 52). -/
def pixBrightness (p : RGB) : ℚ := ((p.r : ℚ) + (p.g : ℚ) + (p.b : ℚ)) / 3

/-- Per-pixel `max(r,g,b) - min(r,g,b)` (server.py lines 60-62). -/
def pixSat (p : RGB) : ℚ :=
  max (max (p.r : ℚ) (p.g : ℚ)) (p.b : ℚ) - min (min (p.r : ℚ) (p.g : ℚ)) (p.b : ℚ)

/-- The snow mask predicate (server.py lines 68-69):
`(brightness > threshold) & (saturation < 25) & (brightness < 250)` with
threshold 170 at night and 200 by day. -/
def snowLike (night : Bool) (p : RGB) : Bool :=
  let brightnessThreshold : ℚ := if night then 170 else 200
  decide (brightnessThreshold < pixBrightness p)
    && decide (pixSat p < 25) && decide (pixBrightness p < 250)

/-- `bottom_section = img_array[int(height * 0.6):]` (server.py line 47):
the bottom 40% of the rows. -/
def Img.groundRows (img : Img) : List (List RGB) :=
  img.rows.drop (3 * img.height / 5)

/-- The snow mask over the ground region, with the night flag as an explicit
parameter (the source computes it once from the whole image). -/
def groundMaskN (night : Bool) (img : Img) : List (List Bool) :=
  img.groundRows.map (List.map (snowLike night))

/-- `snow_percentage = np.mean(snow_mask) * 100` (line 73), before the night
adjustment. -/
def rawSnowPct (night : Bool) (img : Img) : FVal :=
  (meanBool (groundMaskN night img).flatten).mul 100

/-- `left_snow = np.mean(snow_mask[:, :int(width * 0.25)]) * 100`
(lines 76, 80), before the night adjustment. -/
def rawLeftPct (night : Bool) (img : Img) : FVal :=
  (meanBool ((groundMaskN night img).map (List.take (img.width / 4))).flatten).mul 100

/-- `right_snow = np.mean(snow_mask[:, int(width * 0.75):]) * 100`
(lines 77, 81), before the night adjustment. -/
def rawRightPct (night : Bool) (img : Img) : FVal :=
  (meanBool ((groundMaskN night img).map (List.drop (3 * img.width / 4))).flatten).mul 100

/-- `curb_snow = max(left_snow, right_snow)` (line 82). -/
def rawCurbPct (night : Bool) (img : Img) : FVal :=
  pymax (rawLeftPct night img) (rawRightPct night img)

/-- The night adjustment (lines 85-87): multiply by 0.5 exactly when
`is_night`. -/
def nightAdj (night : Bool) (x : FVal) : FVal :=
  if night then x.mul (1/2) else x

/-- The dict returned by `analyze_image_for_snow` on success
(lines 89-95). -/
structure SnowAnalysis where
  snow_percentage : FVal
  curb_snow_percentage : FVal
  is_night : Bool
  overall_brightness : FVal
deriving DecidableEq, Repr

/-- The extractor body with the night flag as an explicit parameter: the
flag chooses the mask threshold (line 68) and triggers the halving
(lines 85-87); both percentages are rounded to one decimal on return
(lines 90-91). -/
def analyzeWithNight (night : Bool) (img : Img) : SnowAnalysis :=
  { snow_percentage := (nightAdj night (rawSnowPct night img)).round 1
    curb_snow_percentage := (nightAdj night (rawCurbPct night img)).round 1
    is_night := night
    overall_brightness := (overallBrightness img).round 1 }

/-- `analyze_image_for_snow` on a decoded image: the source computes
`is_night` from the whole grid and then runs the rest. -/
def analyzeImg (img : Img) : SnowAnalysis :=
  analyzeWithNight img.isNight img

/-- Outcome of decoding the fetched bytes inside `analyze_image_for_snow`:
the `except ImportError` arm (line 97) and the generic `except Exception`
arm (line 99, e.g. undecodable bytes), or a decoded grid. -/
inductive DecodeOutcome
  | importError
  | decodeFail (msg : String)
  | ok (img : Img)

/-- `analyze_image_for_snow` including its error dictionaries: an `error`
key (modelled by `Except.error`) for the two failure arms. -/
def analyzeImageForSnow : DecodeOutcome → Except String SnowAnalysis
  | DecodeOutcome.importError => Except.error "PIL/numpy not installed"
  | DecodeOutcome.decodeFail msg => Except.error msg
  | DecodeOutcome.ok img => Except.ok (analyzeImg img)

/-- One constructor per reason template of the handler, carrying the value
the f-string interpolates. -/
inductive Reason
  | analysisError (cause : String)
  | curbBlocked (curbPct : FVal)
  | heavySnow (snowPct : FVal)
  | someSnowClear (snowPct : FVal)
  | nightClear (snowPct : FVal)
  | clearConditions (snowPct : FVal)
  | requestTimeout
  | couldNotAnalyze (cause : String)
deriving DecidableEq, Repr

/-- The rule ladder's four locals (server.py lines 182-206). -/
structure Classification where
  status : String
  confidence : ℚ
  reason : Reason
  snow_visible : Bool
deriving DecidableEq, Repr

/-- The threshold rule ladder (server.py lines 182-206), first match wins.
`orZero` is only evaluated under the guard that made the value finite. -/
def classifyFeatures (snowP curbP : FVal) (night : Bool) : Classification :=
  if curbP.gtB 40 then
    { status := "blocked"
      confidence := min 0.85 (0.5 + curbP.orZero / 200)
      reason := Reason.curbBlocked curbP
      snow_visible := true }
  else if snowP.gtB 50 then
    { status := "blocked"
      confidence := min 0.75 (0.4 + snowP.orZero / 200)
      reason := Reason.heavySnow snowP
      snow_visible := true }
  else if snowP.gtB 20 then
    { status := "clear"
      confidence := 0.65
      reason := Reason.someSnowClear snowP
      snow_visible := true }
  else if night && snowP.ltB 10 then
    { status := "clear"
      confidence := 0.75
      reason := Reason.nightClear snowP
      snow_visible := false }
  else
    { status := "clear"
      confidence := 0.85
      reason := Reason.clearConditions snowP
      snow_visible := snowP.gtB 5 }

/-- The ladder without its first rule (rules 2-5 of the spec), used to state
the rule-1 boundary claim. -/
def classifyRules2to5 (snowP : FVal) (night : Bool) : Classification :=
  if snowP.gtB 50 then
    { status := "blocked"
      confidence := min 0.75 (0.4 + snowP.orZero / 200)
      reason := Reason.heavySnow snowP
      snow_visible := true }
  else if snowP.gtB 20 then
    { status := "clear"
      confidence := 0.65
      reason := Reason.someSnowClear snowP
      snow_visible := true }
  else if night && snowP.ltB 10 then
    { status := "clear"
      confidence := 0.75
      reason := Reason.nightClear snowP
      snow_visible := false }
  else
    { status := "clear"
      confidence := 0.85
      reason := Reason.clearConditions snowP
      snow_visible := snowP.gtB 5 }

/-- Outcome of the `requests.get` fetch inside the handler: the
`except requests.exceptions.Timeout` arm (line 222), the generic
`except Exception` arm (line 229, e.g. `raise_for_status`), or image
bytes handed to `analyze_image_for_snow`. -/
inductive FetchOutcome
  | timeout
  | fetchError (msg : String)
  | ok (d : DecodeOutcome)

/-- The JSON body the handler returns; fields absent from a given return
statement are `none`. -/
structure Response where
  status : String
  confidence : ℚ
  reason : Reason
  snow_visible : Option Bool
  snow_percentage : Option FVal
  curb_snow_percentage : Option FVal
deriving DecidableEq, Repr

/-- The `/api/analyze` handler `analyze_image` (server.py lines 152-238):
the timeout arm returns `"obscured"`/0.0, the generic exception arm
`"clear"`/0.0, an analysis `error` key returns `"clear"`/0.5 (lines
167-174), and the success path runs the rule ladder and rounds its
confidence to two decimals (line 210). -/
def analyze_image : FetchOutcome → Response
  | FetchOutcome.timeout =>
    { status := "obscured", confidence := 0, reason := Reason.requestTimeout
      snow_visible := none, snow_percentage := none, curb_snow_percentage := none }
  | FetchOutcome.fetchError msg =>
    { status := "clear", confidence := 0, reason := Reason.couldNotAnalyze msg
      snow_visible := none, snow_percentage := none, curb_snow_percentage := none }
  | FetchOutcome.ok d =>
    match analyzeImageForSnow d with
    | Except.error msg =>
      { status := "clear", confidence := 0.5, reason := Reason.analysisError msg
        snow_visible := some false, snow_percentage := none
        curb_snow_percentage := none }
    | Except.ok a =>
      let c := classifyFeatures a.snow_percentage a.curb_snow_percentage a.is_night
      { status := c.status
        confidence := pyround c.confidence 2
        reason := c.reason
        snow_visible := some c.snow_visible
        snow_percentage := some a.snow_percentage
        curb_snow_percentage := some a.curb_snow_percentage }

/-- All-white pixel (R=G=B=255). -/
def whitePix : RGB := ⟨255, 255, 255⟩

/-- Achromatic gray pixel at brightness 220. -/
def grayPix : RGB := ⟨220, 220, 220⟩

/-- Achromatic pixel at brightness 180, between the night (170) and day
(200) thresholds. -/
def dimPix : RGB := ⟨180, 180, 180⟩

/-- A 1×1 all-white image. -/
def img1white : Img := ⟨[[whitePix]]⟩

/-- A 1×3 all-white image (width below 4). -/
def img3white : Img := ⟨[[whitePix, whitePix, whitePix]]⟩

/-- A 1×4 all-white image. -/
def img4white : Img := ⟨[[whitePix, whitePix, whitePix, whitePix]]⟩

/-- A 1×4 uniform gray-220 image. -/
def img4gray : Img := ⟨[[grayPix, grayPix, grayPix, grayPix]]⟩

/-- A 1×4 uniform brightness-180 image. -/
def img4dim : Img := ⟨[[dimPix, dimPix, dimPix, dimPix]]⟩

/-! ### Helper lemmas -/

@[simp] lemma FVal.mul_nan (c : ℚ) : FVal.nan.mul c = FVal.nan := rfl

@[simp] lemma FVal.mul_fin (q c : ℚ) : (FVal.fin q).mul c = FVal.fin (q * c) := rfl

@[simp] lemma FVal.round_nan (n : ℕ) : FVal.nan.round n = FVal.nan := rfl

@[simp] lemma FVal.round_fin (q : ℚ) (n : ℕ) :
    (FVal.fin q).round n = FVal.fin (pyround q n) := rfl

@[simp] lemma FVal.gtB_nan (c : ℚ) : FVal.nan.gtB c = false := rfl

@[simp] lemma FVal.gtB_fin (q c : ℚ) : (FVal.fin q).gtB c = decide (c < q) := rfl

@[simp] lemma FVal.ltB_nan (c : ℚ) : FVal.nan.ltB c = false := rfl

@[simp] lemma FVal.ltB_fin (q c : ℚ) : (FVal.fin q).ltB c = decide (q < c) := rfl

@[simp] lemma FVal.orZero_fin (q : ℚ) : (FVal.fin q).orZero = q := rfl

@[simp] lemma pymax_nan_right (a : FVal) : pymax a FVal.nan = a := by
  cases a <;> rfl

@[simp] lemma pymax_nan_left_fin (q : ℚ) : pymax FVal.nan (FVal.fin q) = FVal.nan := rfl

lemma pymax_fin_fin (x y : ℚ) : pymax (FVal.fin x) (FVal.fin y) = FVal.fin (max x y) := by
  show (if x < y then FVal.fin y else FVal.fin x) = FVal.fin (max x y)
  rcases lt_or_ge x y with h | h
  · rw [if_pos h, max_eq_right (le_of_lt h)]
  · rw [if_neg (not_lt.mpr h), max_eq_left h]

lemma pymax_eq_fin {a b : FVal} {q : ℚ} (h : pymax a b = FVal.fin q) :
    a = FVal.fin q ∨ b = FVal.fin q := by
  cases a with
  | nan =>
    cases b with
    | nan => simp at h
    | fin y => simp at h
  | fin x =>
    cases b with
    | nan => left; simpa using h
    | fin y =>
      rw [pymax_fin_fin] at h
      rcases max_choice x y with hm | hm <;> rw [hm] at h
      · left; exact h
      · right; exact h

@[simp] lemma nightAdj_nan (n : Bool) : nightAdj n FVal.nan = FVal.nan := by
  cases n <;> rfl

lemma nightAdj_fin (n : Bool) (q : ℚ) :
    nightAdj n (FVal.fin q) = FVal.fin (if n then q * (1/2) else q) := by
  cases n <;> rfl

lemma roundHalfEven_ge_floor (q : ℚ) : ⌊q⌋ ≤ roundHalfEven q := by
  unfold roundHalfEven
  split_ifs <;> omega

lemma roundHalfEven_le_floor_add_one (q : ℚ) : roundHalfEven q ≤ ⌊q⌋ + 1 := by
  unfold roundHalfEven
  split_ifs <;> omega

lemma roundHalfEven_intCast (n : ℤ) : roundHalfEven (n : ℚ) = n := by
  unfold roundHalfEven
  rw [Int.fract_intCast, Int.floor_intCast]
  norm_num

lemma roundHalfEven_le_of_le {q : ℚ} {b : ℤ} (h : q ≤ (b : ℚ)) : roundHalfEven q ≤ b := by
  have hfl : ⌊q⌋ ≤ b := by
    have h2 := Int.floor_le_floor h
    rwa [Int.floor_intCast] at h2
  rcases lt_or_eq_of_le hfl with hlt | heq
  · have h3 := roundHalfEven_le_floor_add_one q
    omega
  · have hbq : (b : ℚ) ≤ q := by
      rw [← heq]; exact Int.floor_le q
    have hqb : q = (b : ℚ) := le_antisymm h hbq
    rw [hqb, roundHalfEven_intCast]

lemma le_roundHalfEven_of_le {q : ℚ} {a : ℤ} (h : (a : ℚ) ≤ q) : a ≤ roundHalfEven q :=
  le_trans (Int.le_floor.mpr h) (roundHalfEven_ge_floor q)

lemma roundHalfEven_mono {q r : ℚ} (h : q ≤ r) : roundHalfEven q ≤ roundHalfEven r := by
  rcases lt_or_eq_of_le (Int.floor_le_floor h) with hlt | heq
  · calc roundHalfEven q ≤ ⌊q⌋ + 1 := roundHalfEven_le_floor_add_one q
      _ ≤ ⌊r⌋ := by omega
      _ ≤ roundHalfEven r := roundHalfEven_ge_floor r
  · have hfr : Int.fract q ≤ Int.fract r := by
      simp only [Int.fract]
      rw [heq]
      exact sub_le_sub_right h _
    unfold roundHalfEven
    rw [heq]
    split_ifs <;> first | omega | linarith

lemma pyround_mono {n : ℕ} {q r : ℚ} (h : q ≤ r) : pyround q n ≤ pyround r n := by
  unfold pyround
  have h10 : (0:ℚ) < 10 ^ n := by positivity
  rw [div_le_div_right h10]
  exact_mod_cast roundHalfEven_mono (mul_le_mul_of_nonneg_right h (le_of_lt h10))

lemma pyround_bounds {a b : ℤ} {q : ℚ} (n : ℕ) (h1 : (a:ℚ) ≤ q) (h2 : q ≤ (b:ℚ)) :
    (a:ℚ) ≤ pyround q n ∧ pyround q n ≤ (b:ℚ) := by
  have h10 : (0:ℚ) < 10 ^ n := by positivity
  have hl : (a * 10 ^ n : ℤ) ≤ roundHalfEven (q * 10 ^ n) := by
    apply le_roundHalfEven_of_le
    push_cast
    exact mul_le_mul_of_nonneg_right h1 (le_of_lt h10)
  have hr : roundHalfEven (q * 10 ^ n) ≤ (b * 10 ^ n : ℤ) := by
    apply roundHalfEven_le_of_le
    push_cast
    exact mul_le_mul_of_nonneg_right h2 (le_of_lt h10)
  constructor
  · rw [pyround, le_div_iff h10]
    calc (a:ℚ) * 10 ^ n = ((a * 10 ^ n : ℤ) : ℚ) := by push_cast; ring
      _ ≤ _ := Int.cast_le.mpr hl
  · rw [pyround, div_le_iff h10]
    calc ((roundHalfEven (q * 10 ^ n) : ℤ) : ℚ) ≤ ((b * 10 ^ n : ℤ) : ℚ) := Int.cast_le.mpr hr
      _ = (b:ℚ) * 10 ^ n := by push_cast; ring

lemma meanBool_fin_bounds {l : List Bool} {m : ℚ} (h : meanBool l = FVal.fin m) :
    0 ≤ m ∧ m ≤ 1 := by
  unfold meanBool at h
  by_cases hl : l.length = 0
  · rw [if_pos hl] at h
    exact absurd h (by simp)
  · rw [if_neg hl] at h
    injection h with hm
    have hlen : 0 < (l.length : ℚ) := by
      have h2 : 0 < l.length := Nat.pos_of_ne_zero hl
      exact_mod_cast h2
    refine ⟨?_, ?_⟩
    · rw [← hm]; positivity
    · rw [← hm, div_le_one hlen]
      exact_mod_cast List.count_le_length _ _

lemma meanMul100_fin_bounds {l : List Bool} {m : ℚ}
    (h : (meanBool l).mul 100 = FVal.fin m) : 0 ≤ m ∧ m ≤ 100 := by
  cases hml : meanBool l with
  | nan => rw [hml] at h; simp at h
  | fin x =>
    obtain ⟨h0, h1⟩ := meanBool_fin_bounds hml
    rw [hml, FVal.mul_fin] at h
    have hx : x * 100 = m := by simpa using h
    constructor <;> nlinarith [hx]

lemma storedPct_bounds {x : FVal} {night : Bool} {q : ℚ}
    (hx : ∀ m, x = FVal.fin m → 0 ≤ m ∧ m ≤ 100)
    (h : (nightAdj night x).round 1 = FVal.fin q) : 0 ≤ q ∧ q ≤ 100 := by
  cases x with
  | nan => rw [nightAdj_nan] at h; simp at h
  | fin m =>
    obtain ⟨h0, h100⟩ := hx m rfl
    rw [nightAdj_fin, FVal.round_fin] at h
    have hq : pyround (if night then m * (1/2) else m) 1 = q := by simpa using h
    have hv0 : (0:ℚ) ≤ (if night then m * (1/2) else m) := by
      split_ifs <;> linarith
    have hv100 : (if night then m * (1/2) else m) ≤ (100:ℚ) := by
      split_ifs <;> linarith
    have hb := pyround_bounds (a := 0) (b := 100) 1 (by exact_mod_cast hv0) (by exact_mod_cast hv100)
    rw [hq] at hb
    constructor
    · have := hb.1; exact_mod_cast this
    · have := hb.2; exact_mod_cast this

lemma rawSnowPct_fin_bounds {night : Bool} {img : Img} {m : ℚ}
    (h : rawSnowPct night img = FVal.fin m) : 0 ≤ m ∧ m ≤ 100 :=
  meanMul100_fin_bounds h

lemma rawLeftPct_fin_bounds {night : Bool} {img : Img} {m : ℚ}
    (h : rawLeftPct night img = FVal.fin m) : 0 ≤ m ∧ m ≤ 100 :=
  meanMul100_fin_bounds h

lemma rawRightPct_fin_bounds {night : Bool} {img : Img} {m : ℚ}
    (h : rawRightPct night img = FVal.fin m) : 0 ≤ m ∧ m ≤ 100 :=
  meanMul100_fin_bounds h

lemma rawCurbPct_fin_bounds {night : Bool} {img : Img} {m : ℚ}
    (h : rawCurbPct night img = FVal.fin m) : 0 ≤ m ∧ m ≤ 100 := by
  rcases pymax_eq_fin h with h2 | h2
  · exact rawLeftPct_fin_bounds h2
  · exact rawRightPct_fin_bounds h2

lemma classifyFeatures_status (s c : FVal) (n : Bool) :
    (classifyFeatures s c n).status = "blocked" ∨ (classifyFeatures s c n).status = "clear" := by
  unfold classifyFeatures
  split_ifs <;> simp

lemma classifyFeatures_conf_bounds (s c : FVal) (n : Bool) :
    0 ≤ (classifyFeatures s c n).confidence ∧ (classifyFeatures s c n).confidence ≤ 1 := by
  unfold classifyFeatures
  split_ifs with h1 h2 h3 h4
  · obtain ⟨cq, hcq, hgt⟩ : ∃ cq, c = FVal.fin cq ∧ 40 < cq := by
      cases c with
      | nan => simp at h1
      | fin q => exact ⟨q, rfl, by simpa using h1⟩
    subst hcq
    dsimp only [FVal.orZero_fin]
    constructor
    · apply le_min
      · norm_num
      · have hp : (0:ℚ) < cq / 200 := div_pos (by linarith) (by norm_num)
        linarith
    · calc min (0.85:ℚ) (0.5 + cq / 200) ≤ 0.85 := min_le_left _ _
        _ ≤ 1 := by norm_num
  · obtain ⟨sq, hsq, hgt⟩ : ∃ sq, s = FVal.fin sq ∧ 50 < sq := by
      cases s with
      | nan => simp at h2
      | fin q => exact ⟨q, rfl, by simpa using h2⟩
    subst hsq
    dsimp only [FVal.orZero_fin]
    constructor
    · apply le_min
      · norm_num
      · have hp : (0:ℚ) < sq / 200 := div_pos (by linarith) (by norm_num)
        linarith
    · calc min (0.75:ℚ) (0.4 + sq / 200) ≤ 0.75 := min_le_left _ _
        _ ≤ 1 := by norm_num
  · constructor <;> norm_num
  · constructor <;> norm_num
  · constructor <;> norm_num

lemma flatten_take_zero {α : Type*} (l : List (List α)) :
    (l.map (List.take 0)).flatten = [] := by
  induction l with
  | nil => rfl
  | cons r rs _ => simp

lemma flatten_ne_nil_of_mem {α : Type*} {l : List (List α)} {r : List α}
    (hr : r ∈ l) (hne : r ≠ []) : l.flatten ≠ [] := by
  obtain ⟨x, hx⟩ := List.exists_mem_of_ne_nil r hne
  exact List.ne_nil_of_mem (List.mem_flatten.mpr ⟨r, hr, hx⟩)

lemma mem_flatten_map_subset {α : Type*} {l : List (List α)} {f : List α → List α}
    (hf : ∀ r : List α, f r ⊆ r) {b : α} (hb : b ∈ (l.map f).flatten) : b ∈ l.flatten := by
  rw [List.mem_flatten] at hb
  obtain ⟨mrow, hmrow, hbm⟩ := hb
  rw [List.mem_map] at hmrow
  obtain ⟨row, hrow, rfl⟩ := hmrow
  exact List.mem_flatten.mpr ⟨row, hrow, hf row hbm⟩

lemma exists_ground_row {img : Img} (hrect : img.Rect) (hh : 1 ≤ img.height) :
    ∃ r ∈ img.groundRows, r.length = img.width := by
  have hrows : img.rows.length = img.height := rfl
  have hlt : 3 * img.height / 5 < img.height := by
    rw [Nat.div_lt_iff_lt_mul (by norm_num : 0 < 5)]
    omega
  have hg : img.groundRows ≠ [] := by
    unfold Img.groundRows
    intro hnil
    have hlen := congrArg List.length hnil
    rw [List.length_drop] at hlen
    simp only [List.length_nil] at hlen
    omega
  obtain ⟨r, hr⟩ := List.exists_mem_of_ne_nil _ hg
  exact ⟨r, hr, hrect r (List.drop_subset _ _ hr)⟩

lemma slice_flatten_ne_nil {img : Img} (n : Bool) (hrect : img.Rect) (hh : 1 ≤ img.height)
    {f : List Bool → List Bool}
    (hf : ∀ l : List Bool, l.length = img.width → f l ≠ []) :
    ((groundMaskN n img).map f).flatten ≠ [] := by
  obtain ⟨r, hrg, hrlen⟩ := exists_ground_row hrect hh
  have hmem : f (r.map (snowLike n)) ∈ (groundMaskN n img).map f := by
    apply List.mem_map_of_mem
    exact List.mem_map_of_mem _ hrg
  exact flatten_ne_nil_of_mem hmem (hf _ (by rw [List.length_map]; exact hrlen))

lemma groundMask_flatten_ne_nil {img : Img} (n : Bool) (hrect : img.Rect)
    (hh : 1 ≤ img.height) (hw : 1 ≤ img.width) : (groundMaskN n img).flatten ≠ [] := by
  obtain ⟨r, hrg, hrlen⟩ := exists_ground_row hrect hh
  refine flatten_ne_nil_of_mem (List.mem_map_of_mem _ hrg) ?_
  intro h0
  have hlen := congrArg List.length h0
  rw [List.length_map, hrlen] at hlen
  simp only [List.length_nil] at hlen
  omega

lemma take_div4_ne_nil {w : ℕ} (hw : 4 ≤ w) (l : List Bool) (hl : l.length = w) :
    l.take (w / 4) ≠ [] := by
  intro h0
  have hlen := congrArg List.length h0
  rw [List.length_take, hl] at hlen
  simp only [List.length_nil] at hlen
  have h1 : 1 ≤ w / 4 := (Nat.le_div_iff_mul_le (by norm_num)).mpr (by omega)
  have h2 : w / 4 ≤ w := Nat.div_le_self _ _
  omega

lemma drop_3div4_ne_nil {w : ℕ} (hw : 1 ≤ w) (l : List Bool) (hl : l.length = w) :
    l.drop (3 * w / 4) ≠ [] := by
  intro h0
  have hlen := congrArg List.length h0
  rw [List.length_drop, hl] at hlen
  simp only [List.length_nil] at hlen
  have h1 : 3 * w / 4 < w := by
    rw [Nat.div_lt_iff_lt_mul (by norm_num : 0 < 4)]
    omega
  omega

lemma meanBool_all_false {l : List Bool} (hne : l ≠ []) (hall : ∀ b ∈ l, b = false) :
    meanBool l = FVal.fin 0 := by
  unfold meanBool
  rw [if_neg (fun h0 => hne (List.length_eq_zero.mp h0))]
  have hc : l.count true = 0 :=
    List.count_eq_zero.mpr (fun h => absurd (hall true h) (by decide))
  rw [hc]
  norm_num

lemma snowLike_white (n : Bool) : snowLike n whitePix = false := by
  cases n <;> with_unfolding_all decide

lemma pyround_zero (n : ℕ) : pyround 0 n = 0 := by
  unfold pyround roundHalfEven
  rw [zero_mul, Int.fract_zero, Int.floor_zero]
  norm_num

lemma row_channelSum_all_white (row : List RGB) (h : ∀ p ∈ row, p = whitePix) :
    (row.map RGB.channelSum).sum = 765 * row.length := by
  induction row with
  | nil => rfl
  | cons p ps ih =>
    have hp := h p (List.mem_cons_self _ _)
    subst hp
    rw [List.map_cons, List.sum_cons, List.length_cons,
      ih (fun q hq => h q (List.mem_cons_of_mem _ hq))]
    show 765 + 765 * ps.length = 765 * (ps.length + 1)
    ring

lemma rows_channelTotal_all_white (rows : List (List RGB))
    (hwp : ∀ row ∈ rows, ∀ p ∈ row, p = whitePix) :
    (rows.map (fun row => (row.map RGB.channelSum).sum)).sum
      = 765 * (rows.map List.length).sum := by
  induction rows with
  | nil => rfl
  | cons r rs ih =>
    rw [List.map_cons, List.sum_cons, List.map_cons, List.sum_cons,
      row_channelSum_all_white r (hwp r (List.mem_cons_self _ _)),
      ih (fun row hrow => hwp row (List.mem_cons_of_mem _ hrow))]
    ring

lemma narrow_width_curb_nan {img : Img} (hw : img.width < 4) :
    rawLeftPct img.isNight img = FVal.nan
    ∧ (analyzeImg img).curb_snow_percentage = FVal.nan := by
  have hdiv : img.width / 4 = 0 := Nat.div_eq_of_lt hw
  have hleft : rawLeftPct img.isNight img = FVal.nan := by
    unfold rawLeftPct
    rw [hdiv, flatten_take_zero]
    rfl
  refine ⟨hleft, ?_⟩
  show (nightAdj img.isNight (rawCurbPct img.isNight img)).round 1 = FVal.nan
  unfold rawCurbPct
  rw [hleft]
  cases hr : rawRightPct img.isNight img with
  | nan => simp
  | fin y => simp

lemma meanBool_ne_nil_fin {l : List Bool} (h : l ≠ []) :
    ∃ x : ℚ, meanBool l = FVal.fin x := by
  unfold meanBool
  rw [if_neg (fun h0 => h (List.length_eq_zero.mp h0))]
  exact ⟨_, rfl⟩

lemma wide_width_curb_fin {img : Img} (hrect : img.Rect) (hh : 1 ≤ img.height)
    (hw : 4 ≤ img.width) :
    ∃ q : ℚ, (analyzeImg img).curb_snow_percentage = FVal.fin q := by
  have hneL := slice_flatten_ne_nil img.isNight hrect hh (take_div4_ne_nil hw)
  have hneR := slice_flatten_ne_nil img.isNight hrect hh (drop_3div4_ne_nil (by omega))
  obtain ⟨ml, hml⟩ := meanBool_ne_nil_fin hneL
  obtain ⟨mr, hmr⟩ := meanBool_ne_nil_fin hneR
  have hxl : rawLeftPct img.isNight img = FVal.fin (ml * 100) := by
    unfold rawLeftPct
    rw [hml, FVal.mul_fin]
  have hxr : rawRightPct img.isNight img = FVal.fin (mr * 100) := by
    unfold rawRightPct
    rw [hmr, FVal.mul_fin]
  refine ⟨pyround (if img.isNight then max (ml * 100) (mr * 100) * (1/2)
    else max (ml * 100) (mr * 100)) 1, ?_⟩
  show (nightAdj img.isNight (rawCurbPct img.isNight img)).round 1 = _
  unfold rawCurbPct
  rw [hxl, hxr, pymax_fin_fin, nightAdj_fin, FVal.round_fin]

/-! ### Claim theorems -/

/-- C1, counterexample: feeding undecodable bytes (an extraction failure)
makes the handler return `status = "clear"` with confidence 0.5 — not
`"obscured"` with confidence 0.0 as the claim states. -/
theorem C1_counterexample :
    (analyze_image (FetchOutcome.ok (DecodeOutcome.decodeFail "broken image bytes"))).status
        = "clear"
    ∧ (analyze_image (FetchOutcome.ok (DecodeOutcome.decodeFail "broken image bytes"))).confidence
        = 0.5
    ∧ (analyze_image (FetchOutcome.ok (DecodeOutcome.decodeFail "broken image bytes"))).status
        ≠ "obscured" := by
  refine ⟨rfl, rfl, ?_⟩
  decide

/-- C1, amended: when feature extraction fails (undecodable bytes or the
PIL/numpy import failing), the handler returns `status = "clear"`,
confidence 0.5, `snow_visible = false`, and a reason naming the failure
cause; `status = "obscured"` arises only from the image-fetch timeout
path. -/
theorem C1_extraction_failure :
    (∀ msg : String,
      (analyze_image (FetchOutcome.ok (DecodeOutcome.decodeFail msg))).status = "clear"
      ∧ (analyze_image (FetchOutcome.ok (DecodeOutcome.decodeFail msg))).confidence = 0.5
      ∧ (analyze_image (FetchOutcome.ok (DecodeOutcome.decodeFail msg))).snow_visible = some false
      ∧ (analyze_image (FetchOutcome.ok (DecodeOutcome.decodeFail msg))).reason
          = Reason.analysisError msg)
    ∧ ((analyze_image (FetchOutcome.ok DecodeOutcome.importError)).status = "clear"
      ∧ (analyze_image (FetchOutcome.ok DecodeOutcome.importError)).confidence = 0.5
      ∧ (analyze_image (FetchOutcome.ok DecodeOutcome.importError)).snow_visible = some false
      ∧ (analyze_image (FetchOutcome.ok DecodeOutcome.importError)).reason
          = Reason.analysisError "PIL/numpy not installed")
    ∧ (∀ fo : FetchOutcome, (analyze_image fo).status = "obscured" → fo = FetchOutcome.timeout) := by
  refine ⟨fun msg => ⟨rfl, rfl, rfl, rfl⟩, ⟨rfl, rfl, rfl, rfl⟩, ?_⟩
  intro fo h
  cases fo with
  | timeout => rfl
  | fetchError m => exact absurd (show ("clear":String) = "obscured" from h) (by decide)
  | ok d =>
    cases d with
    | importError => exact absurd (show ("clear":String) = "obscured" from h) (by decide)
    | decodeFail m => exact absurd (show ("clear":String) = "obscured" from h) (by decide)
    | ok img =>
      have h2 : (classifyFeatures (analyzeImg img).snow_percentage
          (analyzeImg img).curb_snow_percentage (analyzeImg img).is_night).status = "obscured" := h
      rcases classifyFeatures_status (analyzeImg img).snow_percentage
          (analyzeImg img).curb_snow_percentage (analyzeImg img).is_night with hs | hs <;>
        rw [hs] at h2 <;> exact absurd h2 (by decide)

/-- C1, witness: the obscured-only-from-timeout implication discharged at
the timeout outcome, and the extraction-failure conclusion at a concrete
decode failure. -/
theorem C1_witness :
    (analyze_image FetchOutcome.timeout).status = "obscured"
    ∧ FetchOutcome.timeout = FetchOutcome.timeout
    ∧ (analyze_image
        (FetchOutcome.ok (DecodeOutcome.decodeFail "cannot identify image file"))).snow_visible
        = some false :=
  ⟨rfl, C1_extraction_failure.2.2 FetchOutcome.timeout rfl,
    (C1_extraction_failure.1 "cannot identify image file").2.2.1⟩

/-- C2: whenever `curb_snow_percentage > 40`, rule 1 fires first regardless
of `snow_percentage` and `is_night`: status blocked, confidence
`min(0.85, 0.5 + curb/200)`, snow visible. -/
theorem C2_curb_rule_first (s : FVal) (n : Bool) (c : ℚ) (h : 40 < c) :
    classifyFeatures s (FVal.fin c) n =
      { status := "blocked"
        confidence := min 0.85 (0.5 + c / 200)
        reason := Reason.curbBlocked (FVal.fin c)
        snow_visible := true } := by
  have hc : (FVal.fin c).gtB 40 = true := by
    simp only [FVal.gtB_fin, decide_eq_true_eq]
    exact h
  unfold classifyFeatures
  rw [if_pos hc]
  rfl

/-- C2, witness: rule 1 at curb percentage 50, day, zero ground snow. -/
theorem C2_witness :
    (40:ℚ) < 50
    ∧ classifyFeatures (FVal.fin 0) (FVal.fin 50) false =
        { status := "blocked"
          confidence := min 0.85 (0.5 + 50 / 200)
          reason := Reason.curbBlocked (FVal.fin 50)
          snow_visible := true } :=
  ⟨by norm_num, C2_curb_rule_first (FVal.fin 0) false 50 (by norm_num)⟩

/-- C3: a ground pixel is snow-like exactly when its brightness exceeds the
day/night threshold (200 day, 170 night), its saturation is below 25, and
its brightness is below 250; and the night flag holds exactly when the
whole-image mean brightness is (finite and) below 80. -/
theorem C3_snow_pixel_rule :
    (∀ (n : Bool) (p : RGB), snowLike n p = true ↔
      ((if n then (170:ℚ) else 200) < pixBrightness p
        ∧ pixSat p < 25 ∧ pixBrightness p < 250))
    ∧ (∀ img : Img, img.isNight = true ↔
        ∃ q : ℚ, overallBrightness img = FVal.fin q ∧ q < 80) := by
  constructor
  · intro n p
    simp [snowLike, and_assoc]
  · intro img
    unfold Img.isNight
    cases h : overallBrightness img with
    | nan => simp [h]
    | fin v => simp [h]

/-- C7: the rule-1 boundary is strict at 40: with curb percentage 41 the
status is blocked, while with 39 and with exactly 40 the ladder behaves as
its rules 2-5 (the tail without the curb rule), whatever the other
features are. -/
theorem C7_rule1_boundary (s : FVal) (n : Bool) :
    (classifyFeatures s (FVal.fin 41) n).status = "blocked"
    ∧ classifyFeatures s (FVal.fin 39) n = classifyRules2to5 s n
    ∧ classifyFeatures s (FVal.fin 40) n = classifyRules2to5 s n := by
  refine ⟨?_, ?_, ?_⟩
  · have hc : (FVal.fin (41:ℚ)).gtB 40 = true := by
      simp only [FVal.gtB_fin, decide_eq_true_eq]
      norm_num
    unfold classifyFeatures
    rw [if_pos hc]
  · have hc : ¬((FVal.fin (39:ℚ)).gtB 40 = true) := by
      simp only [FVal.gtB_fin, decide_eq_true_eq]
      norm_num
    unfold classifyFeatures classifyRules2to5
    rw [if_neg hc]
  · have hc : ¬((FVal.fin (40:ℚ)).gtB 40 = true) := by
      simp only [FVal.gtB_fin, decide_eq_true_eq]
      norm_num
    unfold classifyFeatures classifyRules2to5
    rw [if_neg hc]

/-- C9: every response with status blocked also reports snow visible. -/
theorem C9_blocked_implies_visible (fo : FetchOutcome)
    (h : (analyze_image fo).status = "blocked") :
    (analyze_image fo).snow_visible = some true := by
  cases fo with
  | timeout => exact absurd (show ("obscured":String) = "blocked" from h) (by decide)
  | fetchError m => exact absurd (show ("clear":String) = "blocked" from h) (by decide)
  | ok d =>
    cases d with
    | importError => exact absurd (show ("clear":String) = "blocked" from h) (by decide)
    | decodeFail m => exact absurd (show ("clear":String) = "blocked" from h) (by decide)
    | ok img =>
      have h2 : (classifyFeatures (analyzeImg img).snow_percentage
          (analyzeImg img).curb_snow_percentage (analyzeImg img).is_night).status = "blocked" := h
      show some (classifyFeatures (analyzeImg img).snow_percentage
          (analyzeImg img).curb_snow_percentage (analyzeImg img).is_night).snow_visible = some true
      revert h2
      unfold classifyFeatures
      split_ifs <;> intro h2 <;>
        first
        | rfl
        | exact absurd (show ("clear":String) = "blocked" from h2) (by decide)

/-- C9, witness: the uniform gray-220 image is classified blocked and
reports snow visible. -/
theorem C9_witness :
    (analyze_image (FetchOutcome.ok (DecodeOutcome.ok img4gray))).status = "blocked"
    ∧ (analyze_image (FetchOutcome.ok (DecodeOutcome.ok img4gray))).snow_visible = some true :=
  ⟨by with_unfolding_all decide,
    C9_blocked_implies_visible (FetchOutcome.ok (DecodeOutcome.ok img4gray))
      (by with_unfolding_all decide)⟩

/-- C4: the reported curb percentage is the maximum — not the average — of
the snow-like percentages of the left `w/4`-column slice and the right
slice from column `3w/4` of the ground region, each slice processed
(night-adjusted and rounded) independently; the maximum uses the Python
`max` that propagates a `nan` first argument. -/
theorem C4_curb_is_max (img : Img) :
    (analyzeImg img).curb_snow_percentage
      = pymax ((nightAdj img.isNight (rawLeftPct img.isNight img)).round 1)
              ((nightAdj img.isNight (rawRightPct img.isNight img)).round 1) := by
  have key : ∀ (n : Bool) (a b : FVal),
      (nightAdj n (pymax a b)).round 1
        = pymax ((nightAdj n a).round 1) ((nightAdj n b).round 1) := by
    intro n a b
    cases a with
    | nan =>
      cases b with
      | nan => simp
      | fin y => simp [nightAdj_fin]
    | fin x =>
      cases b with
      | nan => simp
      | fin y =>
        rw [pymax_fin_fin, nightAdj_fin, nightAdj_fin, nightAdj_fin, FVal.round_fin,
          FVal.round_fin, FVal.round_fin, pymax_fin_fin]
        congr 1
        have hmono : Monotone (fun t : ℚ => pyround (if n then t * (1/2) else t) 1) := by
          intro u v huv
          cases n with
          | false => simpa using pyround_mono huv
          | true =>
            have h2 : u * (1/2) ≤ v * (1/2) := by linarith
            simpa using pyround_mono h2
        simpa using hmono.map_max (a := x) (b := y)
  show (nightAdj img.isNight
      (pymax (rawLeftPct img.isNight img) (rawRightPct img.isNight img))).round 1 = _
  exact key img.isNight _ _

/-- C5, counterexample: for uniform brightness-180 achromatic content the
extractor flagged night reports a snow percentage of 50 (the pixels pass
the night threshold 170 and the total is then halved), while the same
content flagged day reports 0 (they fail the day threshold 200) — and 50
is not half of 0, refuting the claimed night/day halving relation. -/
theorem C5_counterexample :
    (analyzeWithNight true img4dim).snow_percentage = FVal.fin 50
    ∧ (analyzeWithNight false img4dim).snow_percentage = FVal.fin 0
    ∧ FVal.fin 50 ≠ (FVal.fin 0).mul (1/2) :=
  ⟨by with_unfolding_all decide, by with_unfolding_all decide, by with_unfolding_all decide⟩

/-- C5, amended: the 0.5 multiplier is applied to both percentages exactly
when `isNight` holds, relative to the raw percentages computed under the
same flag (which also selects the 170-vs-200 mask threshold): with
`isNight` the reported values are the halved-then-rounded raw night
values, without it the rounded raw day values; and whenever the raw night
and day percentages of the content coincide, the night-adjusted value is
exactly half the day value. -/
theorem C5_night_halving (img : Img) :
    ((analyzeWithNight true img).snow_percentage
        = ((rawSnowPct true img).mul (1/2)).round 1
      ∧ (analyzeWithNight true img).curb_snow_percentage
        = ((rawCurbPct true img).mul (1/2)).round 1)
    ∧ ((analyzeWithNight false img).snow_percentage = (rawSnowPct false img).round 1
      ∧ (analyzeWithNight false img).curb_snow_percentage = (rawCurbPct false img).round 1)
    ∧ (rawSnowPct true img = rawSnowPct false img →
        nightAdj true (rawSnowPct true img)
          = (nightAdj false (rawSnowPct false img)).mul (1/2))
    ∧ (rawCurbPct true img = rawCurbPct false img →
        nightAdj true (rawCurbPct true img)
          = (nightAdj false (rawCurbPct false img)).mul (1/2)) := by
  refine ⟨⟨rfl, rfl⟩, ⟨rfl, rfl⟩, ?_, ?_⟩
  · intro h
    show (rawSnowPct true img).mul (1/2) = (rawSnowPct false img).mul (1/2)
    rw [h]
  · intro h
    show (rawCurbPct true img).mul (1/2) = (rawCurbPct false img).mul (1/2)
    rw [h]

/-- C5, witness: on the all-white 1×4 image the raw night and day
percentages coincide (both 0), and the halving relation holds there. -/
theorem C5_witness :
    rawSnowPct true img4white = rawSnowPct false img4white
    ∧ nightAdj true (rawSnowPct true img4white)
        = (nightAdj false (rawSnowPct false img4white)).mul (1/2) :=
  ⟨by with_unfolding_all decide,
    (C5_night_halving img4white).2.2.1 (by with_unfolding_all decide)⟩

/-- C6, counterexample: for the decoded 1×1 all-white image the left curb
slice is empty, so the returned `curb_snow_percentage` field is NaN — not
a number in [0, 100] as the claim requires of every input. -/
theorem C6_counterexample :
    (analyze_image (FetchOutcome.ok (DecodeOutcome.ok img1white))).curb_snow_percentage
      = some FVal.nan := by
  with_unfolding_all decide

/-- C6, amended: on every input the status is one of exactly clear,
blocked, obscured and the confidence lies in [0,1]; the percentage
fields, whenever present and carrying a finite number, lie in [0,100]
(for decoded images narrower than 4 pixels the curb percentage is NaN
instead, so the [0,100] range only covers the finite case). -/
theorem C6_result_invariants (fo : FetchOutcome) :
    ((analyze_image fo).status = "clear" ∨ (analyze_image fo).status = "blocked"
      ∨ (analyze_image fo).status = "obscured")
    ∧ (0 ≤ (analyze_image fo).confidence ∧ (analyze_image fo).confidence ≤ 1)
    ∧ (∀ q : ℚ, (analyze_image fo).snow_percentage = some (FVal.fin q) → 0 ≤ q ∧ q ≤ 100)
    ∧ (∀ q : ℚ, (analyze_image fo).curb_snow_percentage = some (FVal.fin q)
        → 0 ≤ q ∧ q ≤ 100) := by
  cases fo with
  | timeout =>
    refine ⟨Or.inr (Or.inr rfl), ⟨le_refl 0, show (0:ℚ) ≤ 1 by norm_num⟩, ?_, ?_⟩ <;>
      exact fun q h =>
        absurd (show (Option.none : Option FVal) = some (FVal.fin q) from h) (by simp)
  | fetchError m =>
    refine ⟨Or.inl rfl, ⟨le_refl 0, show (0:ℚ) ≤ 1 by norm_num⟩, ?_, ?_⟩ <;>
      exact fun q h =>
        absurd (show (Option.none : Option FVal) = some (FVal.fin q) from h) (by simp)
  | ok d =>
    cases d with
    | importError =>
      refine ⟨Or.inl rfl, ⟨show (0:ℚ) ≤ 0.5 by norm_num, show (0.5:ℚ) ≤ 1 by norm_num⟩,
        ?_, ?_⟩ <;>
        exact fun q h =>
          absurd (show (Option.none : Option FVal) = some (FVal.fin q) from h) (by simp)
    | decodeFail m =>
      refine ⟨Or.inl rfl, ⟨show (0:ℚ) ≤ 0.5 by norm_num, show (0.5:ℚ) ≤ 1 by norm_num⟩,
        ?_, ?_⟩ <;>
        exact fun q h =>
          absurd (show (Option.none : Option FVal) = some (FVal.fin q) from h) (by simp)
    | ok img =>
      refine ⟨?_, ⟨?_, ?_⟩, ?_, ?_⟩
      · rcases classifyFeatures_status (analyzeImg img).snow_percentage
            (analyzeImg img).curb_snow_percentage (analyzeImg img).is_night with hs | hs
        · exact Or.inr (Or.inl hs)
        · exact Or.inl hs
      · obtain ⟨h0, h1⟩ := classifyFeatures_conf_bounds (analyzeImg img).snow_percentage
            (analyzeImg img).curb_snow_percentage (analyzeImg img).is_night
        have hb := pyround_bounds (a := 0) (b := 1) 2 (by exact_mod_cast h0) (by exact_mod_cast h1)
        have hb1 : (0:ℚ) ≤ pyround (classifyFeatures (analyzeImg img).snow_percentage
            (analyzeImg img).curb_snow_percentage (analyzeImg img).is_night).confidence 2 := by
          exact_mod_cast hb.1
        exact hb1
      · obtain ⟨h0, h1⟩ := classifyFeatures_conf_bounds (analyzeImg img).snow_percentage
            (analyzeImg img).curb_snow_percentage (analyzeImg img).is_night
        have hb := pyround_bounds (a := 0) (b := 1) 2 (by exact_mod_cast h0) (by exact_mod_cast h1)
        have hb2 : pyround (classifyFeatures (analyzeImg img).snow_percentage
            (analyzeImg img).curb_snow_percentage (analyzeImg img).is_night).confidence 2
              ≤ (1:ℚ) := by
          exact_mod_cast hb.2
        exact hb2
      · intro q h
        have h2 : (nightAdj img.isNight (rawSnowPct img.isNight img)).round 1 = FVal.fin q :=
          Option.some.inj h
        exact storedPct_bounds (fun m hm => rawSnowPct_fin_bounds hm) h2
      · intro q h
        have h2 : (nightAdj img.isNight (rawCurbPct img.isNight img)).round 1 = FVal.fin q :=
          Option.some.inj h
        exact storedPct_bounds (fun m hm => rawCurbPct_fin_bounds hm) h2

/-- C6, witness: the percentage-range implication discharged at the gray-220
image, whose snow percentage field is exactly 100. -/
theorem C6_witness :
    (analyze_image (FetchOutcome.ok (DecodeOutcome.ok img4gray))).snow_percentage
      = some (FVal.fin 100)
    ∧ ((0:ℚ) ≤ 100 ∧ (100:ℚ) ≤ 100) :=
  ⟨by with_unfolding_all decide,
    (C6_result_invariants (FetchOutcome.ok (DecodeOutcome.ok img4gray))).2.2.1 100
      (by with_unfolding_all decide)⟩

/-- C10: for every decoded image narrower than 4 pixels the left curb slice
is empty (its column bound `w/4` is 0), its mean — and hence the reported
curb percentage — is NaN; while for every rectangular decoded image at
least 1 pixel tall and 4 pixels wide the curb percentage is a finite
number. -/
theorem C10_narrow_width_nan :
    (∀ img : Img, img.width < 4 →
      rawLeftPct img.isNight img = FVal.nan
      ∧ (analyzeImg img).curb_snow_percentage = FVal.nan)
    ∧ (∀ img : Img, img.Rect → 1 ≤ img.height → 4 ≤ img.width →
      ∃ q : ℚ, (analyzeImg img).curb_snow_percentage = FVal.fin q) :=
  ⟨fun _ hw => narrow_width_curb_nan hw,
    fun _ hrect hh hw => wide_width_curb_fin hrect hh hw⟩

/-- C10, witness: the 1×3 all-white image (width 3) gets a NaN curb
percentage, the 1×4 all-white image a finite one. -/
theorem C10_witness :
    ((analyzeImg img3white).curb_snow_percentage = FVal.nan)
    ∧ (∃ q : ℚ, (analyzeImg img4white).curb_snow_percentage = FVal.fin q) :=
  ⟨(C10_narrow_width_nan.1 img3white (by decide)).2,
    C10_narrow_width_nan.2 img4white (by decide) (by decide) (by decide)⟩

/-- C8, counterexample: for the all-white 1×1 image the reported curb
percentage is NaN (the left curb slice of a 1-pixel-wide image is empty),
not the 0 the claim asserts for every all-white image. -/
theorem C8_counterexample :
    (analyzeImg img1white).curb_snow_percentage = FVal.nan
    ∧ FVal.nan ≠ FVal.fin 0 :=
  ⟨by with_unfolding_all decide, by with_unfolding_all decide⟩

/-- C8, amended: for every nonempty rectangular all-white image no pixel is
snow-like (each is excluded by the brightness < 250 cap), so the snow
percentage is 0, the default rule fires, and the handler returns status
clear with confidence 0.85 and no visible snow; the curb percentage is 0
as well when the image is at least 4 pixels wide (narrower all-white
images get NaN there instead). -/
theorem C8_all_white (img : Img) (hrect : img.Rect) (hh : 1 ≤ img.height)
    (hw : 1 ≤ img.width) (hwp : ∀ row ∈ img.rows, ∀ p ∈ row, p = whitePix) :
    (analyzeImg img).snow_percentage = FVal.fin 0
    ∧ (4 ≤ img.width → (analyzeImg img).curb_snow_percentage = FVal.fin 0)
    ∧ (analyze_image (FetchOutcome.ok (DecodeOutcome.ok img))).status = "clear"
    ∧ (analyze_image (FetchOutcome.ok (DecodeOutcome.ok img))).confidence = 0.85
    ∧ (analyze_image (FetchOutcome.ok (DecodeOutcome.ok img))).snow_visible = some false := by
  have hmask : ∀ (n : Bool), ∀ b ∈ (groundMaskN n img).flatten, b = false := by
    intro n b hb
    rw [List.mem_flatten] at hb
    obtain ⟨mrow, hmrow, hbm⟩ := hb
    unfold groundMaskN at hmrow
    rw [List.mem_map] at hmrow
    obtain ⟨r, hrg, rfl⟩ := hmrow
    rw [List.mem_map] at hbm
    obtain ⟨p, hpr, rfl⟩ := hbm
    have hp : p = whitePix := hwp r (List.drop_subset _ _ hrg) p hpr
    rw [hp]
    exact snowLike_white n
  have hneG : (groundMaskN img.isNight img).flatten ≠ [] :=
    groundMask_flatten_ne_nil img.isNight hrect hh hw
  have hsnowraw : rawSnowPct img.isNight img = FVal.fin 0 := by
    unfold rawSnowPct
    rw [meanBool_all_false hneG (hmask img.isNight), FVal.mul_fin, zero_mul]
  have hzero : (if img.isNight then (0:ℚ) * (1/2) else 0) = 0 := by
    split_ifs <;> ring
  have hsnow : (analyzeImg img).snow_percentage = FVal.fin 0 := by
    show (nightAdj img.isNight (rawSnowPct img.isNight img)).round 1 = FVal.fin 0
    rw [hsnowraw, nightAdj_fin, hzero, FVal.round_fin, pyround_zero]
  have hpix : 1 ≤ img.pixelCount := by
    have hhh : img.rows.length = img.height := rfl
    have hrne : img.rows ≠ [] := by
      intro h0
      have hlen : img.rows.length = 0 := by rw [h0]; rfl
      omega
    obtain ⟨r, hr⟩ := List.exists_mem_of_ne_nil _ hrne
    have hrl : r.length = img.width := hrect r hr
    have hmem : r.length ∈ img.rows.map List.length := List.mem_map_of_mem _ hr
    have hle := List.single_le_sum (fun (x : ℕ) _ => Nat.zero_le x) _ hmem
    have hpx : img.pixelCount = (img.rows.map List.length).sum := rfl
    omega
  have htot : img.channelTotal = 765 * img.pixelCount :=
    rows_channelTotal_all_white img.rows hwp
  have hnight : img.isNight = false := by
    unfold Img.isNight overallBrightness
    rw [if_neg (by omega : ¬ img.pixelCount = 0)]
    rw [FVal.ltB_fin, decide_eq_false_iff_not]
    intro hlt
    rw [htot] at hlt
    have hN : (0:ℚ) < (img.pixelCount : ℚ) := by exact_mod_cast hpix
    have hN0 : (img.pixelCount : ℚ) ≠ 0 := ne_of_gt hN
    push_cast at hlt
    have h255 : (765 * (img.pixelCount:ℚ)) / (3 * (img.pixelCount:ℚ)) = 255 := by
      field_simp
      ring
    rw [h255] at hlt
    norm_num at hlt
  have hcurb0 : 4 ≤ img.width → (analyzeImg img).curb_snow_percentage = FVal.fin 0 := by
    intro hw4
    have hneL := slice_flatten_ne_nil img.isNight hrect hh (take_div4_ne_nil hw4)
    have hneR := slice_flatten_ne_nil img.isNight hrect hh (drop_3div4_ne_nil hw)
    have hallL : ∀ b ∈ ((groundMaskN img.isNight img).map
        (List.take (img.width / 4))).flatten, b = false :=
      fun b hb => hmask img.isNight b (mem_flatten_map_subset (fun r => List.take_subset _ _) hb)
    have hallR : ∀ b ∈ ((groundMaskN img.isNight img).map
        (List.drop (3 * img.width / 4))).flatten, b = false :=
      fun b hb => hmask img.isNight b (mem_flatten_map_subset (fun r => List.drop_subset _ _) hb)
    have hL : rawLeftPct img.isNight img = FVal.fin 0 := by
      unfold rawLeftPct
      rw [meanBool_all_false hneL hallL, FVal.mul_fin, zero_mul]
    have hR : rawRightPct img.isNight img = FVal.fin 0 := by
      unfold rawRightPct
      rw [meanBool_all_false hneR hallR, FVal.mul_fin, zero_mul]
    show (nightAdj img.isNight (rawCurbPct img.isNight img)).round 1 = FVal.fin 0
    unfold rawCurbPct
    rw [hL, hR, pymax_fin_fin, max_self, nightAdj_fin, hzero, FVal.round_fin, pyround_zero]
  have hcurbcases : (analyzeImg img).curb_snow_percentage = FVal.nan
      ∨ (analyzeImg img).curb_snow_percentage = FVal.fin 0 := by
    by_cases hw4 : 4 ≤ img.width
    · exact Or.inr (hcurb0 hw4)
    · exact Or.inl (narrow_width_curb_nan (by omega)).2
  have hgt40 : ((analyzeImg img).curb_snow_percentage).gtB 40 = false := by
    rcases hcurbcases with hc | hc <;> rw [hc]
    · rfl
    · rw [FVal.gtB_fin, decide_eq_false_iff_not]
      norm_num
  have h50 : ¬((FVal.fin (0:ℚ)).gtB 50 = true) := by
    rw [FVal.gtB_fin, decide_eq_true_eq]
    norm_num
  have h20 : ¬((FVal.fin (0:ℚ)).gtB 20 = true) := by
    rw [FVal.gtB_fin, decide_eq_true_eq]
    norm_num
  have h5 : (FVal.fin (0:ℚ)).gtB 5 = false := by
    rw [FVal.gtB_fin, decide_eq_false_iff_not]
    norm_num
  have hisn : (analyzeImg img).is_night = img.isNight := rfl
  have hclass : classifyFeatures (analyzeImg img).snow_percentage
      (analyzeImg img).curb_snow_percentage (analyzeImg img).is_night =
      { status := "clear", confidence := 0.85
        reason := Reason.clearConditions (FVal.fin 0), snow_visible := false } := by
    rw [hsnow, hisn, hnight]
    unfold classifyFeatures
    rw [if_neg (by simp [hgt40]), if_neg h50, if_neg h20,
      if_neg (by simp : ¬((false && (FVal.fin (0:ℚ)).ltB 10) = true)), h5]
  refine ⟨hsnow, hcurb0, ?_, ?_, ?_⟩
  · show (classifyFeatures (analyzeImg img).snow_percentage
        (analyzeImg img).curb_snow_percentage (analyzeImg img).is_night).status = "clear"
    rw [hclass]
  · show pyround (classifyFeatures (analyzeImg img).snow_percentage
        (analyzeImg img).curb_snow_percentage (analyzeImg img).is_night).confidence 2 = 0.85
    rw [hclass]
    show pyround 0.85 2 = 0.85
    with_unfolding_all decide
  · show some (classifyFeatures (analyzeImg img).snow_percentage
        (analyzeImg img).curb_snow_percentage (analyzeImg img).is_night).snow_visible
        = some false
    rw [hclass]

/-- C8, witness: the amended statement discharged at the 1×4 all-white
image. -/
theorem C8_witness :
    img4white.Rect ∧ 4 ≤ img4white.width
    ∧ (analyzeImg img4white).snow_percentage = FVal.fin 0
    ∧ (analyzeImg img4white).curb_snow_percentage = FVal.fin 0
    ∧ (analyze_image (FetchOutcome.ok (DecodeOutcome.ok img4white))).status = "clear"
    ∧ (analyze_image (FetchOutcome.ok (DecodeOutcome.ok img4white))).confidence = 0.85
    ∧ (analyze_image (FetchOutcome.ok (DecodeOutcome.ok img4white))).snow_visible
        = some false :=
  ⟨by decide, by decide,
    (C8_all_white img4white (by decide) (by decide) (by decide) (by decide)).1,
    (C8_all_white img4white (by decide) (by decide) (by decide) (by decide)).2.1 (by decide),
    (C8_all_white img4white (by decide) (by decide) (by decide) (by decide)).2.2.1,
    (C8_all_white img4white (by decide) (by decide) (by decide) (by decide)).2.2.2.1,
    (C8_all_white img4white (by decide) (by decide) (by decide) (by decide)).2.2.2.2⟩


end SnowedIn
